import Mathlib

/-!
# stacker: the account-creation Lambda handler

A shallow embedding of `main.go`, `config.go` and `structs.go`.

Conventions of the embedding.

* A Go `error` is its message: `error := Option String`, `none` being `nil`.
  `fmt.Errorf("ctx: %s", err)` is string concatenation.
* A Go function returning `(v, err)` returns a pair; both components are kept,
  because the code returns both.
* Everything outside the process (environment, parameter store, vendor HTTP API,
  file system, IAM) and the library codecs (`encoding/json`, `fmt.Sprintf` on a
  template read from disk) are fields of a `World`.  No collaborator is ever
  called twice with the same argument in one invocation, so a function per
  collaborator loses no generality.
* Functions that talk to the outside return the list of external calls they made,
  in order, paired with the answer they received.
* `stscreds.NewCredentials` is lazy: the `sts:AssumeRole` exchange happens inside the first
  IAM request, so it is part of that request and its failure is that request failing.
* Panics are outside the model: `session.Must` on a failed session, a nil
  `result.Parameter`, and a nil request after `f5aip.Request` fails.
* A status code is a Go `int`, here `Int`; the verb `%d` is `toString`.
-/

namespace Stacker

/-! ## structs.go -/

/-- Mirror of `eventBridgeUserIdentity`. -/
structure eventBridgeUserIdentity where
  AccountID : String := ""
  InvokedBy : String := ""
deriving DecidableEq, Repr

/-- Mirror of `controlTowerServiceEventOU`. -/
structure controlTowerServiceEventOU where
  OrganizationalUnitName : String := ""
  OrganizationalUnitID : String := ""
deriving DecidableEq, Repr

/-- Mirror of `controlTowerServiceEventAccount`. -/
structure controlTowerServiceEventAccount where
  AccountName : String := ""
  AccountID : String := ""
deriving DecidableEq, Repr

/-- Mirror of `controlTowerServiceEventStatus`. -/
structure controlTowerServiceEventStatus where
  OrganizationalUnit : controlTowerServiceEventOU := {}
  Account : controlTowerServiceEventAccount := {}
  State : String := ""
  Message : String := ""
  RequestedTimestamp : String := ""
  CompletedTimestamp : String := ""
deriving DecidableEq, Repr

/-- Mirror of `orgCreateAccountStatus`. -/
structure orgCreateAccountStatus where
  ID : String := ""
  State : String := ""
  AccountName : String := ""
  AccountID : String := ""
  RequestedTimestamp : String := ""
  CompletedTimestamp : String := ""
deriving DecidableEq, Repr

/-- Mirror of `serviceEventDetails`: both nested shapes are always present as fields. -/
structure serviceEventDetails where
  CreateManagedAccountStatus : controlTowerServiceEventStatus := {}
  CreateAccountStatus : orgCreateAccountStatus := {}
deriving DecidableEq, Repr

/-- Mirror of `eventBridgeDetail`. -/
structure eventBridgeDetail where
  EventVersion : String := ""
  UserIdentity : eventBridgeUserIdentity := {}
  EventTime : String := ""
  EventSource : String := ""
  EventName : String := ""
  AWSRegion : String := ""
  SourceIPAddress : String := ""
  UserAgent : String := ""
  EventID : String := ""
  ReadOnly : Bool := false
  EventType : String := ""
  ServiceEventDetails : serviceEventDetails := {}
deriving DecidableEq, Repr

/-- Mirror of `eventBridgeEvent`. -/
structure eventBridgeEvent where
  Version : String := ""
  ID : String := ""
  DetailType : String := ""
  Source : String := ""
  Time : String := ""
  Region : String := ""
  Resources : List String := []
  Detail : eventBridgeDetail := {}
deriving DecidableEq, Repr

/-- Mirror of `newIntegrationPayload`. -/
structure newIntegrationPayload where
  ARN : String := ""
  Description : String := ""
deriving DecidableEq, Repr

/-- Mirror of `newIntegrationResp`; the JSON tags are `id`, `arn`, `externalId`, `description`. -/
structure newIntegrationResp where
  IntegrationID : String := ""
  ARN : String := ""
  ExternalID : String := ""
  Description : String := ""
deriving DecidableEq, Repr

/-- Mirror of `newEC2SyncPayload`. -/
structure newEC2SyncPayload where
  Enabled : Bool := false
  Regions : List String := []
deriving DecidableEq, Repr

/-! ## Go values -/

/-- A Go `error`, identified with its message; `none` is `nil`. -/
abbrev error := Option String

/-! ## main.go: determineAccountID -/

/-- Mirror of `determineAccountID` (main.go 109-118). -/
def determineAccountID (e : eventBridgeEvent) : String × error :=
  if e.Detail.EventSource = "controltower.amazonaws.com" ∧ e.Detail.EventName = "CreateManagedAccount" then
    (e.Detail.ServiceEventDetails.CreateManagedAccountStatus.Account.AccountID, none)
  else if e.Detail.EventSource = "organizations.amazonaws.com" ∧ e.Detail.EventName = "CreateAccountResult" then
    (e.Detail.ServiceEventDetails.CreateAccountStatus.AccountID, none)
  else
    ("", some "unable to determine target account: unknown EventSource/EventName")

/-! ## The outside world -/

/-- Mirror of `aws.Config` as used here: the ambient region and, for the IAM client, the role
whose credentials `stscreds.NewCredentials` will obtain (lazily, inside the first IAM request). -/
structure aws.Config where
  Region : String := ""
  Credentials : Option String := none
deriving DecidableEq, Repr

/-- Mirror of `aws.StringValue`: a nil pointer reads as the empty string. -/
def aws.StringValue : Option String → String
  | some s => s
  | none => ""

/-- Mirror of `ssm.GetParameterInput` (the fields the code sets). -/
structure ssm.GetParameterInput where
  Name : String
  WithDecryption : Bool
deriving DecidableEq, Repr

/-- Mirror of `ssm.Parameter`: `Value` is a `*string`. -/
structure ssm.Parameter where
  Value : Option String
deriving DecidableEq, Repr

/-- Mirror of `ssm.GetParameterOutput`. -/
structure ssm.GetParameterOutput where
  Parameter : ssm.Parameter
deriving DecidableEq, Repr

/-- Mirror of `f5aip.Config`, the vendor API credentials. -/
structure f5aip.Config where
  User : String := ""
  Key : String := ""
  Org : String := ""
deriving DecidableEq, Repr

/-- The request that `f5aip.Request(creds, method, endpoint, body)` builds. -/
structure http.Request where
  Creds : f5aip.Config
  Method : String
  URL : String
  Body : String
deriving DecidableEq, Repr

/-- An `http.Response` as the code observes it: the status code, and the pair
`(data, err)` that `ioutil.ReadAll(resp.Body)` yields. -/
structure http.Response where
  StatusCode : Int
  Body : String × error
deriving DecidableEq, Repr

/-- Mirror of `f5aip.Request`; the error it may return is discarded by both callers. -/
def f5aip.Request (creds : f5aip.Config) (method endpoint body : String) : http.Request :=
  { Creds := creds, Method := method, URL := endpoint, Body := body }

/-- Mirror of `ioutil.ReadAll` applied to a response body. -/
def ioutil.ReadAll (body : String × error) : String × error := body

/-- Mirror of `iam.CreateRoleInput` (the fields the code sets). -/
structure iam.CreateRoleInput where
  RoleName : String
  AssumeRolePolicyDocument : String
  Description : String
deriving DecidableEq, Repr

/-- Mirror of `iam.CreatePolicyInput` (the fields the code sets). -/
structure iam.CreatePolicyInput where
  PolicyName : String
  PolicyDocument : String
deriving DecidableEq, Repr

/-- Mirror of `iam.AttachRolePolicyInput`. -/
structure iam.AttachRolePolicyInput where
  PolicyArn : String
  RoleName : String
deriving DecidableEq, Repr

/-- The IAM operations relevant to provisioning: the three creating ones the handler uses
and their compensating counterparts in the IAM API. -/
inductive iam.Op where
  | CreateRole
  | CreatePolicy
  | AttachRolePolicy
  | DetachRolePolicy
  | DeletePolicy
  | DeleteRole
deriving DecidableEq, Repr

/-- An IAM request: an operation together with its input. -/
inductive iam.Request where
  | CreateRole (input : iam.CreateRoleInput)
  | CreatePolicy (input : iam.CreatePolicyInput)
  | AttachRolePolicy (input : iam.AttachRolePolicyInput)
  | DetachRolePolicy (input : iam.AttachRolePolicyInput)
  | DeletePolicy (policyArn : String)
  | DeleteRole (roleName : String)
deriving DecidableEq, Repr

/-- The operation of an IAM request. -/
def iam.Request.op : iam.Request → iam.Op
  | .CreateRole _ => .CreateRole
  | .CreatePolicy _ => .CreatePolicy
  | .AttachRolePolicy _ => .AttachRolePolicy
  | .DetachRolePolicy _ => .DetachRolePolicy
  | .DeletePolicy _ => .DeletePolicy
  | .DeleteRole _ => .DeleteRole

/-- One external interaction: the call made and the answer received. -/
inductive Effect where
  | GetParameter (cfg : aws.Config) (input : ssm.GetParameterInput) (out : Except String ssm.GetParameterOutput)
  | Do (req : http.Request) (out : Except String http.Response)
  | ReadFile (name : String) (out : Except String String)
  | IAM (cfg : aws.Config) (req : iam.Request) (err : error)
  | Printf (line : String)

/-- Everything the handler reads from or calls outside itself. -/
structure World where
  /-- The function `os.Getenv`: an unset variable reads as the empty string. -/
  Getenv : String → String
  /-- The call `ssm.GetParameter`. -/
  GetParameter : aws.Config → ssm.GetParameterInput → Except String ssm.GetParameterOutput
  /-- The function `json.Marshal` on a `newIntegrationPayload`. -/
  MarshalIntegration : newIntegrationPayload → Except String String
  /-- The function `json.Marshal` on a `newEC2SyncPayload`. -/
  MarshalEC2Sync : newEC2SyncPayload → Except String String
  /-- The function `json.Unmarshal` into a zero `newIntegrationResp`. -/
  Unmarshal : String → Except String newIntegrationResp
  /-- The call `http.Client.Do`. -/
  Do : http.Request → Except String http.Response
  /-- The call `ioutil.ReadFile`. -/
  ReadFile : String → Except String String
  /-- The function `fmt.Sprintf(format, arg)` for a format read from disk. -/
  Sprintf : String → String → String
  /-- An IAM request issued with the given client configuration. -/
  IAM : aws.Config → iam.Request → error

/-! ## config.go -/

/-- Mirror of `config`. -/
structure config where
  EC2SyncRegions : List String := []
  TargetAccountExecutionRole : String := ""
  TargetAccountID : String := ""
  TargetRoleName : String := ""
  F5APIPath : String := ""
  F5APIKey : String := ""
  F5APIKeyPath : String := ""
  F5OrgID : String := ""
  F5UserID : String := ""
deriving DecidableEq, Repr

/-- Mirror of `strings.Split` with a one-character separator. -/
def strings.Split (s sep : String) : List String := s.splitOn sep

/-- Mirror of `strings.Join`. -/
def strings.Join (elems : List String) (sep : String) : String := sep.intercalate elems

/-- Mirror of `getSecret` (config.go 80-95). -/
def getSecret (w : World) (secretName : String) : List Effect × String × error :=
  let sess : aws.Config := { Region := w.Getenv "AWS_REGION" }
  let paramQuery : ssm.GetParameterInput := { Name := secretName, WithDecryption := true }
  match w.GetParameter sess paramQuery with
  | .error err => ([.GetParameter sess paramQuery (.error err)], "", some err)
  | .ok result => ([.GetParameter sess paramQuery (.ok result)], aws.StringValue result.Parameter.Value, none)

/-- Mirror of `buildConfig` (config.go 34-78), one binding per assignment. -/
def buildConfig (w : World) : List Effect × config × error :=
  let conf : config := {}
  let errs : List String := []
  let regions := w.Getenv "F5_EC2_REGIONS"
  let errs := if regions = "" then errs ++ ["missing $F5_EC2_REGIONS"] else errs
  let conf := if regions = "" then conf else { conf with EC2SyncRegions := strings.Split regions "," }
  let conf := { conf with TargetAccountExecutionRole := w.Getenv "F5_TARGET_ACCOUNT_EXECUTION_ROLE" }
  let errs := if conf.TargetAccountExecutionRole = "" then errs ++ ["missing $F5_TARGET_ACCOUNT_EXECUTION_ROLE"] else errs
  let conf := { conf with TargetRoleName := w.Getenv "F5_TARGET_ROLE_NAME" }
  let errs := if conf.TargetRoleName = "" then errs ++ ["missing $F5_TARGET_ROLE_NAME"] else errs
  let conf := { conf with F5APIKeyPath := w.Getenv "F5_API_KEY_PATH" }
  let errs := if conf.F5APIKeyPath = "" then errs ++ ["missing $F5_API_KEY_PATH"] else errs
  let conf := { conf with F5OrgID := w.Getenv "F5_ORG_ID" }
  let errs := if conf.F5OrgID = "" then errs ++ ["missing $F5_ORG_ID"] else errs
  let conf := { conf with F5UserID := w.Getenv "F5_USER_ID" }
  let errs := if conf.F5UserID = "" then errs ++ ["missing $F5_USER_ID"] else errs
  let conf := { conf with F5APIPath := w.Getenv "F5_API_PATH" }
  let conf := if conf.F5APIPath = "" then { conf with F5APIPath := "https://api.threatstack.com" } else conf
  if errs.length > 0 then
    ([], conf, some (strings.Join errs ", "))
  else
    match getSecret w conf.F5APIKeyPath with
    | (tr, key, some err) => (tr, { conf with F5APIKey := key }, some err)
    | (tr, key, none) => (tr, { conf with F5APIKey := key }, none)

/-! ## main.go: the vendor client -/

/-- Mirror of `f5AWSSetup` (main.go 141-174); returns `(externalID, integrationID, err)`. -/
def f5AWSSetup (w : World) (baseEndpoint : String) (creds : f5aip.Config)
    (targetAccountID targetRole : String) : List Effect × String × String × error :=
  let description := "AWS " ++ targetAccountID
  let endpoint := baseEndpoint ++ "/v2/integrations/aws"
  let payload : newIntegrationPayload :=
    { ARN := "arn:aws:iam::" ++ targetAccountID ++ ":role/" ++ targetRole, Description := description }
  match w.MarshalIntegration payload with
  | .error err => ([], "", "", some ("unable to serialize new integraton payload: " ++ err))
  | .ok payloadBytes =>
    let req := f5aip.Request creds "POST" endpoint payloadBytes
    match w.Do req with
    | .error err => ([.Do req (.error err)], "", "", some err)
    | .ok resp =>
      if resp.StatusCode = 200 then
        match ioutil.ReadAll resp.Body with
        | (_, some err) => ([.Do req (.ok resp)], "", "", some err)
        | (rawJSON, none) =>
          match w.Unmarshal rawJSON with
          | .error err => ([.Do req (.ok resp)], "", "", some err)
          | .ok intResp => ([.Do req (.ok resp)], intResp.ExternalID, intResp.IntegrationID, none)
      else
        let raw := (ioutil.ReadAll resp.Body).1
        ([.Do req (.ok resp)], "", "",
          some ("got " ++ toString resp.StatusCode ++ " from api, body: " ++ raw))

/-- Mirror of `f5EC2SyncSetup` (main.go 176-199). -/
def f5EC2SyncSetup (w : World) (baseEndpoint : String) (creds : f5aip.Config)
    (integrationID : String) (enabledRegions : List String) : List Effect × error :=
  let endpoint := baseEndpoint ++ "/v2/integrations/aws/" ++ integrationID ++ "/ec2"
  let payload : newEC2SyncPayload := { Enabled := true, Regions := enabledRegions }
  match w.MarshalEC2Sync payload with
  | .error err => ([], some ("unable to serialize new integraton payload: " ++ err))
  | .ok payloadBytes =>
    let req := f5aip.Request creds "PUT" endpoint payloadBytes
    match w.Do req with
    | .error err => ([.Do req (.error err)], some err)
    | .ok resp =>
      if resp.StatusCode = 204 then
        ([.Do req (.ok resp)], none)
      else
        let raw := (ioutil.ReadAll resp.Body).1
        ([.Do req (.ok resp)],
          some ("got " ++ toString resp.StatusCode ++ " from api, body: " ++ raw))

/-- Mirror of `setupF5Integration` (main.go 122-139). -/
def setupF5Integration (w : World) (conf : config) : List Effect × String × error :=
  let f5APICreds : f5aip.Config := { User := conf.F5UserID, Key := conf.F5APIKey, Org := conf.F5OrgID }
  match f5AWSSetup w conf.F5APIPath f5APICreds conf.TargetAccountID conf.TargetRoleName with
  | (tr1, _, _, some err) => (tr1, "", some ("unable to set up AWS integration: " ++ err))
  | (tr1, externalID, integrationID, none) =>
    match f5EC2SyncSetup w conf.F5APIPath f5APICreds integrationID conf.EC2SyncRegions with
    | (tr2, some err) => (tr1 ++ tr2, "", some ("unable to set up EC2 Sync: " ++ err))
    | (tr2, none) => (tr1 ++ tr2, externalID, none)

/-! ## main.go: the handler -/

/-- Mirror of `HandleLambdaEvent` (main.go 31-105): the external interactions in order,
and the returned error. -/
def HandleLambdaEvent (w : World) (event : eventBridgeEvent) : List Effect × error :=
  match buildConfig w with
  | (tr0, _, some err) => (tr0, some ("unable to bulid config: " ++ err))
  | (tr0, conf, none) =>
    match determineAccountID event with
    | (_, some err) => (tr0, some ("unable to get target account id: " ++ err))
    | (target, none) =>
      let conf := { conf with TargetAccountID := target }
      match setupF5Integration w conf with
      | (tr1, _, some err) => (tr0 ++ tr1, some ("unable to setup integration: " ++ err))
      | (tr1, externalID, none) =>
        match w.ReadFile "assumeRolePolicy.json" with
        | .error err =>
          (tr0 ++ tr1 ++ [.ReadFile "assumeRolePolicy.json" (.error err)],
            some ("unable to read assumeRolePolicy.json: " ++ err))
        | .ok rawAssumeRolePolicy =>
          match w.ReadFile "syncPolicy.json" with
          | .error err =>
            (tr0 ++ tr1 ++ [.ReadFile "assumeRolePolicy.json" (.ok rawAssumeRolePolicy),
                .ReadFile "syncPolicy.json" (.error err)],
              some ("unable to read syncPolicy.json: " ++ err))
          | .ok rawSyncPolicy =>
            let tr2 := tr0 ++ tr1 ++ [.ReadFile "assumeRolePolicy.json" (.ok rawAssumeRolePolicy),
                .ReadFile "syncPolicy.json" (.ok rawSyncPolicy)]
            let targetRoleARN :=
              "arn:aws:iam::" ++ conf.TargetAccountID ++ ":role/" ++ conf.TargetAccountExecutionRole
            let svc : aws.Config :=
              { Region := w.Getenv "AWS_REGION", Credentials := some targetRoleARN }
            let assumeRolePolicy := w.Sprintf rawAssumeRolePolicy externalID
            let targetRole : iam.CreateRoleInput :=
              { RoleName := conf.TargetRoleName,
                AssumeRolePolicyDocument := assumeRolePolicy,
                Description := "F5 AIP EC2 Integration" }
            match w.IAM svc (.CreateRole targetRole) with
            | some err => (tr2 ++ [.IAM svc (.CreateRole targetRole) (some err)], some err)
            | none =>
              let targetRolePolicy : iam.CreatePolicyInput :=
                { PolicyName := "f5-aip-ec2-sync", PolicyDocument := rawSyncPolicy }
              match w.IAM svc (.CreatePolicy targetRolePolicy) with
              | some err =>
                (tr2 ++ [.IAM svc (.CreateRole targetRole) none,
                    .IAM svc (.CreatePolicy targetRolePolicy) (some err)], some err)
              | none =>
                let attachSyncPolicy : iam.AttachRolePolicyInput :=
                  { PolicyArn := "arn:aws:iam::" ++ conf.TargetAccountID ++ ":policy/f5-aip-ec2-sync",
                    RoleName := conf.TargetRoleName }
                match w.IAM svc (.AttachRolePolicy attachSyncPolicy) with
                | some err =>
                  (tr2 ++ [.IAM svc (.CreateRole targetRole) none,
                      .IAM svc (.CreatePolicy targetRolePolicy) none,
                      .IAM svc (.AttachRolePolicy attachSyncPolicy) (some err)], some err)
                | none =>
                  (tr2 ++ [.IAM svc (.CreateRole targetRole) none,
                      .IAM svc (.CreatePolicy targetRolePolicy) none,
                      .IAM svc (.AttachRolePolicy attachSyncPolicy) none,
                      .Printf ("Successfully created TS Integration with EC2 Sync in TS org "
                        ++ conf.F5OrgID ++ " using ARN arn:aws:iam::" ++ conf.TargetAccountID
                        ++ ":role/" ++ conf.TargetRoleName)], none)

/-! ## Reading a trace -/

/-- The IAM operations of a trace, in order, each with the error it returned. -/
def iamCalls : List Effect → List (iam.Op × error)
  | [] => []
  | .IAM _ req err :: tr => (req.op, err) :: iamCalls tr
  | _ :: tr => iamCalls tr

/-! ## Vocabulary of the specification -/

/-- The six required variables, as the specification enumerates them. -/
def requiredVariables : List String :=
  ["F5_EC2_REGIONS", "F5_TARGET_ACCOUNT_EXECUTION_ROLE", "F5_TARGET_ROLE_NAME",
   "F5_API_KEY_PATH", "F5_ORG_ID", "F5_USER_ID"]

/-- The required variables that are unset or empty in a world, in the order above. -/
def missingVariables (w : World) : List String :=
  requiredVariables.filter (fun v => w.Getenv v = "")

/-- The configuration as the environment alone determines it (no secret resolved yet). -/
def envConfig (w : World) : config :=
  { EC2SyncRegions :=
      if w.Getenv "F5_EC2_REGIONS" = "" then [] else strings.Split (w.Getenv "F5_EC2_REGIONS") ","
    TargetAccountExecutionRole := w.Getenv "F5_TARGET_ACCOUNT_EXECUTION_ROLE"
    TargetRoleName := w.Getenv "F5_TARGET_ROLE_NAME"
    F5APIPath :=
      if w.Getenv "F5_API_PATH" = "" then "https://api.threatstack.com" else w.Getenv "F5_API_PATH"
    F5APIKeyPath := w.Getenv "F5_API_KEY_PATH"
    F5OrgID := w.Getenv "F5_ORG_ID"
    F5UserID := w.Getenv "F5_USER_ID" }

/-- The `(EventSource, EventName)` pair of the event is one of the two recognized pairs. -/
def recognized (e : eventBridgeEvent) : Prop :=
  (e.Detail.EventSource = "controltower.amazonaws.com" ∧ e.Detail.EventName = "CreateManagedAccount") ∨
  (e.Detail.EventSource = "organizations.amazonaws.com" ∧ e.Detail.EventName = "CreateAccountResult")

instance (e : eventBridgeEvent) : Decidable (recognized e) :=
  inferInstanceAs (Decidable (_ ∨ _))

/-! ## Sample events and worlds -/

/-- A Control Tower event for account 111122223333 whose Organizations path holds another ID. -/
def controlTowerEvent : eventBridgeEvent :=
  { Detail :=
    { EventSource := "controltower.amazonaws.com", EventName := "CreateManagedAccount",
      ServiceEventDetails :=
        { CreateManagedAccountStatus := { Account := { AccountID := "111122223333" } },
          CreateAccountStatus := { AccountID := "999999999999" } } } }

/-- An Organizations event for account 111122223333 whose Control Tower path holds another ID. -/
def organizationsEvent : eventBridgeEvent :=
  { Detail :=
    { EventSource := "organizations.amazonaws.com", EventName := "CreateAccountResult",
      ServiceEventDetails :=
        { CreateManagedAccountStatus := { Account := { AccountID := "999999999999" } },
          CreateAccountStatus := { AccountID := "111122223333" } } } }

/-- An event from another service with both nested account IDs populated. -/
def otherServiceEvent : eventBridgeEvent :=
  { Detail :=
    { EventSource := "some.other.service", EventName := "CreateManagedAccount",
      ServiceEventDetails :=
        { CreateManagedAccountStatus := { Account := { AccountID := "111122223333" } },
          CreateAccountStatus := { AccountID := "444455556666" } } } }

/-- A world in which every variable is set and every collaborator accepts. -/
def happyWorld : World where
  Getenv := fun v =>
    if v = "F5_EC2_REGIONS" then "us-east-1,us-west-2"
    else if v = "F5_TARGET_ACCOUNT_EXECUTION_ROLE" then "AWSControlTowerExecution"
    else if v = "F5_TARGET_ROLE_NAME" then "f5-aip-role"
    else if v = "F5_API_KEY_PATH" then "/f5/api-key"
    else if v = "F5_ORG_ID" then "org-1"
    else if v = "F5_USER_ID" then "user-1"
    else if v = "AWS_REGION" then "us-east-1"
    else ""
  GetParameter := fun _ _ => .ok { Parameter := { Value := some "s3cr3t" } }
  MarshalIntegration := fun p => .ok (p.ARN ++ " " ++ p.Description)
  MarshalEC2Sync := fun p => .ok (strings.Join p.Regions " ")
  Unmarshal := fun b =>
    if b = "\x7b\"id\":\"int-1\",\"externalId\":\"ext-1\"\x7d" then
      .ok { IntegrationID := "int-1", ExternalID := "ext-1" }
    else .error "unexpected end of JSON input"
  Do := fun req =>
    if req.Method = "POST" then
      .ok { StatusCode := 200, Body := ("\x7b\"id\":\"int-1\",\"externalId\":\"ext-1\"\x7d", none) }
    else .ok { StatusCode := 204, Body := ("", none) }
  ReadFile := fun name => .ok ("contents of " ++ name ++ ": %s")
  Sprintf := fun format arg => format.replace "%s" arg
  IAM := fun _ _ => none

/-- The happy world, except that the vendor answers every request with the given status and body. -/
def vendorAnswers (status : Int) (body : String) : World :=
  { happyWorld with Do := fun _ => .ok { StatusCode := status, Body := (body, none) } }

/-- The happy world, except that only `F5_ORG_ID` and `F5_USER_ID` are missing. -/
def twoMissingWorld : World :=
  { happyWorld with
    Getenv := fun v => if v = "F5_ORG_ID" ∨ v = "F5_USER_ID" then "" else happyWorld.Getenv v }

/-- The happy world, except that the parameter store holds an empty value. -/
def emptySecretWorld : World :=
  { happyWorld with GetParameter := fun _ _ => .ok { Parameter := { Value := some "" } } }

/-- The happy world, except that the role to create already exists. -/
def roleExistsWorld : World :=
  { happyWorld with
    IAM := fun _ req =>
      match req with
      | .CreateRole _ => some "EntityAlreadyExists: Role with name f5-aip-role already exists."
      | _ => none }

/-! ## Lemmas on the embedding -/

/-- No variable is missing exactly when each of the six reads as a non-empty string. -/
theorem missingVariables_eq_nil (w : World) :
    missingVariables w = [] ↔
      w.Getenv "F5_EC2_REGIONS" ≠ "" ∧ w.Getenv "F5_TARGET_ACCOUNT_EXECUTION_ROLE" ≠ "" ∧
      w.Getenv "F5_TARGET_ROLE_NAME" ≠ "" ∧ w.Getenv "F5_API_KEY_PATH" ≠ "" ∧
      w.Getenv "F5_ORG_ID" ≠ "" ∧ w.Getenv "F5_USER_ID" ≠ "" := by
  simp [missingVariables, requiredVariables, List.filter_eq_nil_iff]

/-- The function `getSecret` makes exactly one lookup and returns what the store answered. -/
theorem getSecret_eq (w : World) (secretName : String) :
    getSecret w secretName =
      ([.GetParameter { Region := w.Getenv "AWS_REGION" } { Name := secretName, WithDecryption := true }
          (w.GetParameter { Region := w.Getenv "AWS_REGION" } { Name := secretName, WithDecryption := true })],
        (match w.GetParameter { Region := w.Getenv "AWS_REGION" } { Name := secretName, WithDecryption := true } with
          | .error _ => ""
          | .ok result => aws.StringValue result.Parameter.Value),
        (match w.GetParameter { Region := w.Getenv "AWS_REGION" } { Name := secretName, WithDecryption := true } with
          | .error err => some err
          | .ok _ => none)) := by
  unfold getSecret
  cases h : w.GetParameter { Region := w.Getenv "AWS_REGION" } { Name := secretName, WithDecryption := true } <;>
    simp [h]

/-- With a variable missing, `buildConfig` stops before the lookup with the joined message. -/
theorem buildConfig_of_missing (w : World) (h : missingVariables w ≠ []) :
    buildConfig w = ([], envConfig w,
        some (strings.Join ((missingVariables w).map (fun v => "missing $" ++ v)) ", ")) := by
  by_cases h1 : w.Getenv "F5_EC2_REGIONS" = "" <;>
  by_cases h2 : w.Getenv "F5_TARGET_ACCOUNT_EXECUTION_ROLE" = "" <;>
  by_cases h3 : w.Getenv "F5_TARGET_ROLE_NAME" = "" <;>
  by_cases h4 : w.Getenv "F5_API_KEY_PATH" = "" <;>
  by_cases h5 : w.Getenv "F5_ORG_ID" = "" <;>
  by_cases h6 : w.Getenv "F5_USER_ID" = "" <;>
  first
  | (exfalso; apply h; simp [missingVariables, requiredVariables, List.filter, h1, h2, h3, h4, h5, h6]; done)
  | (by_cases h7 : w.Getenv "F5_API_PATH" = "" <;>
      simp [buildConfig, envConfig, missingVariables, requiredVariables, List.filter, strings.Join,
        h1, h2, h3, h4, h5, h6, h7])

/-- With no variable missing, `buildConfig` is the environment configuration plus the lookup. -/
theorem buildConfig_of_complete (w : World) (h : missingVariables w = []) :
    buildConfig w =
      ((getSecret w (w.Getenv "F5_API_KEY_PATH")).1,
        { envConfig w with F5APIKey := (getSecret w (w.Getenv "F5_API_KEY_PATH")).2.1 },
        (getSecret w (w.Getenv "F5_API_KEY_PATH")).2.2) := by
  obtain ⟨h1, h2, h3, h4, h5, h6⟩ := (missingVariables_eq_nil w).1 h
  rcases hs : getSecret w (w.Getenv "F5_API_KEY_PATH") with ⟨tr, key, _ | err⟩ <;>
  by_cases h7 : w.Getenv "F5_API_PATH" = "" <;>
  simp [buildConfig, envConfig, h1, h2, h3, h4, h5, h6, h7, hs]

/-- An unrecognized pair makes `determineAccountID` return the empty ID and the fixed error. -/
theorem determineAccountID_unrecognized (e : eventBridgeEvent) (h : ¬ recognized e) :
    determineAccountID e =
      ("", some "unable to determine target account: unknown EventSource/EventName") := by
  unfold recognized at h
  unfold determineAccountID
  split_ifs with h1 h2
  · exact absurd (Or.inl h1) h
  · exact absurd (Or.inr h2) h
  · rfl

/-- The IAM calls of a concatenated trace. -/
theorem iamCalls_append (a b : List Effect) : iamCalls (a ++ b) = iamCalls a ++ iamCalls b := by
  induction a with
  | nil => rfl
  | cons x xs ih => cases x <;> simp [iamCalls, ih]

/-- Loading the configuration issues no IAM call. -/
theorem iamCalls_buildConfig (w : World) : iamCalls (buildConfig w).1 = [] := by
  by_cases hm : missingVariables w = []
  · rw [buildConfig_of_complete w hm, getSecret_eq]; rfl
  · rw [buildConfig_of_missing w hm]; rfl

/-- Registering the integration issues no IAM call. -/
theorem iamCalls_f5AWSSetup (w : World) (baseEndpoint : String) (creds : f5aip.Config)
    (targetAccountID targetRole : String) :
    iamCalls (f5AWSSetup w baseEndpoint creds targetAccountID targetRole).1 = [] := by
  simp only [f5AWSSetup]
  split
  · rfl
  · split
    · rfl
    · split
      · split
        · rfl
        · split <;> rfl
      · rfl

/-- Enabling the sync issues no IAM call. -/
theorem iamCalls_f5EC2SyncSetup (w : World) (baseEndpoint : String) (creds : f5aip.Config)
    (integrationID : String) (enabledRegions : List String) :
    iamCalls (f5EC2SyncSetup w baseEndpoint creds integrationID enabledRegions).1 = [] := by
  simp only [f5EC2SyncSetup]
  split
  · rfl
  · split
    · rfl
    · split <;> rfl

/-- The vendor stage issues no IAM call. -/
theorem iamCalls_setupF5Integration (w : World) (conf : config) :
    iamCalls (setupF5Integration w conf).1 = [] := by
  unfold setupF5Integration
  have h1 := iamCalls_f5AWSSetup w conf.F5APIPath
    { User := conf.F5UserID, Key := conf.F5APIKey, Org := conf.F5OrgID }
    conf.TargetAccountID conf.TargetRoleName
  rcases ha : f5AWSSetup w conf.F5APIPath
    { User := conf.F5UserID, Key := conf.F5APIKey, Org := conf.F5OrgID }
    conf.TargetAccountID conf.TargetRoleName
    with ⟨tr1, externalID, integrationID, _ | err⟩
  · rw [ha] at h1
    have h2 := iamCalls_f5EC2SyncSetup w conf.F5APIPath
      { User := conf.F5UserID, Key := conf.F5APIKey, Org := conf.F5OrgID }
      integrationID conf.EC2SyncRegions
    rcases hb : f5EC2SyncSetup w conf.F5APIPath
      { User := conf.F5UserID, Key := conf.F5APIKey, Org := conf.F5OrgID }
      integrationID conf.EC2SyncRegions
      with ⟨tr2, _ | err⟩
    · rw [hb] at h2; simp_all [iamCalls_append]
    · rw [hb] at h2; simp_all [iamCalls_append]
  · rw [ha] at h1; simp_all

/-- A message with a non-empty context in front of it differs from the bare message. -/
theorem append_ne_self (ctx s : String) (h : ctx ≠ "") : ctx ++ s ≠ s := by
  intro heq
  have hl := congrArg String.length heq
  rw [String.length_append] at hl
  have h0 : ctx.length = 0 := by omega
  exact h (String.ext (List.length_eq_zero.mp h0))

/-! ## Event classification -/

/-- Claim C1. For every event, `determineAccountID` selects by the (EventSource, EventName)
pair alone: on the Control Tower pair it succeeds with the Control Tower account ID, on the
Organizations pair it succeeds with the Organizations account ID, whatever every other field
of the event holds. -/
theorem determineAccountID_selects_by_pair (e : eventBridgeEvent) :
    (e.Detail.EventSource = "controltower.amazonaws.com" ∧
        e.Detail.EventName = "CreateManagedAccount" →
      determineAccountID e =
        (e.Detail.ServiceEventDetails.CreateManagedAccountStatus.Account.AccountID, none)) ∧
    (e.Detail.EventSource = "organizations.amazonaws.com" ∧
        e.Detail.EventName = "CreateAccountResult" →
      determineAccountID e =
        (e.Detail.ServiceEventDetails.CreateAccountStatus.AccountID, none)) := by
  constructor
  · intro h; simp [determineAccountID, h]
  · rintro ⟨h1, h2⟩; simp [determineAccountID, h1, h2]

/-- Both sample events yield 111122223333 although the other nested path holds 999999999999. -/
theorem determineAccountID_selects_by_pair_witness :
    determineAccountID controlTowerEvent = ("111122223333", none) ∧
    determineAccountID organizationsEvent = ("111122223333", none) :=
  ⟨(determineAccountID_selects_by_pair controlTowerEvent).1 ⟨rfl, rfl⟩,
   (determineAccountID_selects_by_pair organizationsEvent).2 ⟨rfl, rfl⟩⟩

/-- Claim C2. For every event, `determineAccountID` returns an error if and only if the
(EventSource, EventName) pair is neither of the two recognized pairs, and whenever it returns
an error the returned account ID is the empty string. -/
theorem determineAccountID_error_iff (e : eventBridgeEvent) :
    ((determineAccountID e).2 ≠ none ↔
      ¬ (e.Detail.EventSource = "controltower.amazonaws.com" ∧
          e.Detail.EventName = "CreateManagedAccount") ∧
      ¬ (e.Detail.EventSource = "organizations.amazonaws.com" ∧
          e.Detail.EventName = "CreateAccountResult")) ∧
    ((determineAccountID e).2 ≠ none → (determineAccountID e).1 = "") := by
  unfold determineAccountID
  split_ifs with h1 h2 <;> simp_all

/-- An event from some.other.service fails with an empty ID although both paths are populated. -/
theorem determineAccountID_error_iff_witness :
    (determineAccountID otherServiceEvent).2 ≠ none ∧
    (determineAccountID otherServiceEvent).1 = "" :=
  ⟨(determineAccountID_error_iff otherServiceEvent).1.2 ⟨by decide, by decide⟩,
   (determineAccountID_error_iff otherServiceEvent).2
     ((determineAccountID_error_iff otherServiceEvent).1.2 ⟨by decide, by decide⟩)⟩

/-! ## Configuration loading -/

/-- Claim C3. For every environment in which at least one of the six required variables is
unset or empty, `buildConfig` fails and its message is the ", "-joined sequence of
"missing $NAME" entries, one for each missing required variable, in the order the variables
are read, and none for a variable that is present or for the optional `F5_API_PATH`. -/
theorem buildConfig_lists_missing (w : World) (h : missingVariables w ≠ []) :
    (buildConfig w).2.2 =
      some (", ".intercalate ((missingVariables w).map (fun v => "missing $" ++ v))) := by
  rw [buildConfig_of_missing w h]
  rfl

/-- With only `F5_ORG_ID` and `F5_USER_ID` missing the message names exactly those two. -/
theorem buildConfig_lists_missing_witness :
    missingVariables twoMissingWorld ≠ [] ∧
    (buildConfig twoMissingWorld).2.2 = some "missing $F5_ORG_ID, missing $F5_USER_ID" :=
  ⟨by decide, (buildConfig_lists_missing twoMissingWorld (by decide)).trans (by decide)⟩

/-- Claim C8, as amended. For every environment and every behaviour of the parameter store,
if `buildConfig` succeeds then TargetAccountExecutionRole, TargetRoleName, F5APIKeyPath,
F5OrgID and F5UserID are non-empty, and F5APIKey is the value the parameter store returned for
F5APIKeyPath (a nil value reading as the empty string), whatever that value is. -/
theorem buildConfig_ok_fields (w : World) (h : (buildConfig w).2.2 = none) :
    (buildConfig w).2.1.TargetAccountExecutionRole ≠ "" ∧
    (buildConfig w).2.1.TargetRoleName ≠ "" ∧
    (buildConfig w).2.1.F5APIKeyPath ≠ "" ∧
    (buildConfig w).2.1.F5OrgID ≠ "" ∧
    (buildConfig w).2.1.F5UserID ≠ "" ∧
    ∃ out,
      w.GetParameter { Region := w.Getenv "AWS_REGION" }
        { Name := (buildConfig w).2.1.F5APIKeyPath, WithDecryption := true } = .ok out ∧
      (buildConfig w).2.1.F5APIKey = aws.StringValue out.Parameter.Value := by
  by_cases hm : missingVariables w = []
  · obtain ⟨h1, h2, h3, h4, h5, h6⟩ := (missingVariables_eq_nil w).1 hm
    rw [buildConfig_of_complete w hm, getSecret_eq] at h ⊢
    cases hg : w.GetParameter { Region := w.Getenv "AWS_REGION" }
        { Name := w.Getenv "F5_API_KEY_PATH", WithDecryption := true } with
    | error err => simp [hg] at h
    | ok out => simp [envConfig, h2, h3, h4, h5, h6, hg]
  · rw [buildConfig_of_missing w hm] at h
    simp at h

/-- In the happy world loading succeeds, the five fields are set and the key is the secret. -/
theorem buildConfig_ok_fields_witness :
    (buildConfig happyWorld).2.2 = none ∧
    (buildConfig happyWorld).2.1.TargetAccountExecutionRole ≠ "" ∧
    (buildConfig happyWorld).2.1.TargetRoleName ≠ "" ∧
    (buildConfig happyWorld).2.1.F5APIKeyPath ≠ "" ∧
    (buildConfig happyWorld).2.1.F5OrgID ≠ "" ∧
    (buildConfig happyWorld).2.1.F5UserID ≠ "" ∧
    ∃ out,
      happyWorld.GetParameter { Region := happyWorld.Getenv "AWS_REGION" }
        { Name := (buildConfig happyWorld).2.1.F5APIKeyPath, WithDecryption := true } = .ok out ∧
      (buildConfig happyWorld).2.1.F5APIKey = aws.StringValue out.Parameter.Value :=
  ⟨by decide, buildConfig_ok_fields happyWorld (by decide)⟩

/-- Counterexample to claim C8 as stated: when the parameter store answers with an empty value,
`buildConfig` succeeds and the F5APIKey field of the returned configuration is empty. -/
theorem buildConfig_empty_secret :
    (buildConfig emptySecretWorld).2.2 = none ∧
    (buildConfig emptySecretWorld).2.1.F5APIKey = "" := by
  decide

/-! ## The vendor client -/

/-- Claim C4. For every vendor response to the registration request with status 200 whose
body decodes (by `json.Unmarshal` into `newIntegrationResp`) to id = i and externalId = e,
`f5AWSSetup` succeeds and returns the pair in the order (external ID, integration ID) = (e, i). -/
theorem f5AWSSetup_ok (w : World) (baseEndpoint : String) (creds : f5aip.Config)
    (targetAccountID targetRole payloadBytes body i e : String)
    (resp : http.Response) (r : newIntegrationResp)
    (hm : w.MarshalIntegration
        { ARN := "arn:aws:iam::" ++ targetAccountID ++ ":role/" ++ targetRole,
          Description := "AWS " ++ targetAccountID } = .ok payloadBytes)
    (hd : w.Do (f5aip.Request creds "POST" (baseEndpoint ++ "/v2/integrations/aws") payloadBytes)
        = .ok resp)
    (hs : resp.StatusCode = 200) (hb : ioutil.ReadAll resp.Body = (body, none))
    (hj : w.Unmarshal body = .ok r) (hi : r.IntegrationID = i) (he : r.ExternalID = e) :
    (f5AWSSetup w baseEndpoint creds targetAccountID targetRole).2 = (e, i, none) := by
  simp [f5AWSSetup, hm, hd, hs, hb, hj, hi, he]

/-- The body with id int-1 and externalId ext-1 under status 200 yields (ext-1, int-1). -/
theorem f5AWSSetup_ok_witness :
    (f5AWSSetup happyWorld "https://api.threatstack.com" { User := "u", Key := "k", Org := "o" }
      "444455556666" "f5-aip-role").2 = ("ext-1", "int-1", none) :=
  f5AWSSetup_ok happyWorld "https://api.threatstack.com" { User := "u", Key := "k", Org := "o" }
    "444455556666" "f5-aip-role" _ "\x7b\"id\":\"int-1\",\"externalId\":\"ext-1\"\x7d"
    "int-1" "ext-1" _ { IntegrationID := "int-1", ExternalID := "ext-1" }
    rfl rfl rfl rfl rfl rfl rfl

/-- Claim C5. For every vendor response to the registration request whose status s is not 200
and whose body is b, `f5AWSSetup` fails, returns empty external and integration IDs, and its
message is "got s from api, body: b" with s in decimal and b verbatim. -/
theorem f5AWSSetup_not_200 (w : World) (baseEndpoint : String) (creds : f5aip.Config)
    (targetAccountID targetRole payloadBytes : String) (resp : http.Response)
    (hm : w.MarshalIntegration
        { ARN := "arn:aws:iam::" ++ targetAccountID ++ ":role/" ++ targetRole,
          Description := "AWS " ++ targetAccountID } = .ok payloadBytes)
    (hd : w.Do (f5aip.Request creds "POST" (baseEndpoint ++ "/v2/integrations/aws") payloadBytes)
        = .ok resp)
    (hs : resp.StatusCode ≠ 200) :
    (f5AWSSetup w baseEndpoint creds targetAccountID targetRole).2 =
      ("", "", some ("got " ++ toString resp.StatusCode ++ " from api, body: "
        ++ (ioutil.ReadAll resp.Body).1)) := by
  simp [f5AWSSetup, hm, hd, hs]

/-- Status 403 with body forbidden, and status 201 with an otherwise valid body, both fail. -/
theorem f5AWSSetup_not_200_witness :
    (f5AWSSetup (vendorAnswers 403 "forbidden") "https://api.threatstack.com"
      { User := "u", Key := "k", Org := "o" } "444455556666" "f5-aip-role").2 =
        ("", "", some "got 403 from api, body: forbidden") ∧
    (f5AWSSetup (vendorAnswers 201 "\x7b\"id\":\"int-1\",\"externalId\":\"ext-1\"\x7d")
      "https://api.threatstack.com" { User := "u", Key := "k", Org := "o" }
      "444455556666" "f5-aip-role").2 =
        ("", "", some "got 201 from api, body: \x7b\"id\":\"int-1\",\"externalId\":\"ext-1\"\x7d") :=
  ⟨f5AWSSetup_not_200 (vendorAnswers 403 "forbidden") "https://api.threatstack.com"
      { User := "u", Key := "k", Org := "o" } "444455556666" "f5-aip-role" _
      { StatusCode := 403, Body := ("forbidden", none) } rfl rfl (by decide),
   f5AWSSetup_not_200 (vendorAnswers 201 "\x7b\"id\":\"int-1\",\"externalId\":\"ext-1\"\x7d")
      "https://api.threatstack.com" { User := "u", Key := "k", Org := "o" }
      "444455556666" "f5-aip-role" _
      { StatusCode := 201, Body := ("\x7b\"id\":\"int-1\",\"externalId\":\"ext-1\"\x7d", none) }
      rfl rfl (by decide)⟩

/-- Claim C6. For every integration ID, region list and vendor response to the sync-enable
request, `f5EC2SyncSetup` returns no error if and only if the response status is exactly 204. -/
theorem f5EC2SyncSetup_ok_iff (w : World) (baseEndpoint : String) (creds : f5aip.Config)
    (integrationID payloadBytes : String) (enabledRegions : List String) (resp : http.Response)
    (hm : w.MarshalEC2Sync { Enabled := true, Regions := enabledRegions } = .ok payloadBytes)
    (hd : w.Do (f5aip.Request creds "PUT"
        (baseEndpoint ++ "/v2/integrations/aws/" ++ integrationID ++ "/ec2") payloadBytes)
        = .ok resp) :
    (f5EC2SyncSetup w baseEndpoint creds integrationID enabledRegions).2 = none ↔
      resp.StatusCode = 204 := by
  by_cases hs : resp.StatusCode = 204 <;> simp [f5EC2SyncSetup, hm, hd, hs]

/-- Status 204 succeeds; statuses 500 and 200 fail. -/
theorem f5EC2SyncSetup_ok_iff_witness :
    (f5EC2SyncSetup (vendorAnswers 204 "") "https://api.threatstack.com"
      { User := "u", Key := "k", Org := "o" } "int-1" ["us-east-1"]).2 = none ∧
    (f5EC2SyncSetup (vendorAnswers 500 "oops") "https://api.threatstack.com"
      { User := "u", Key := "k", Org := "o" } "int-1" ["us-east-1"]).2 ≠ none ∧
    (f5EC2SyncSetup (vendorAnswers 200 "") "https://api.threatstack.com"
      { User := "u", Key := "k", Org := "o" } "int-1" ["us-east-1"]).2 ≠ none :=
  ⟨(f5EC2SyncSetup_ok_iff (vendorAnswers 204 "") "https://api.threatstack.com"
      { User := "u", Key := "k", Org := "o" } "int-1" _ ["us-east-1"]
      { StatusCode := 204, Body := ("", none) } rfl rfl).2 rfl,
   fun h => absurd ((f5EC2SyncSetup_ok_iff (vendorAnswers 500 "oops") "https://api.threatstack.com"
      { User := "u", Key := "k", Org := "o" } "int-1" _ ["us-east-1"]
      { StatusCode := 500, Body := ("oops", none) } rfl rfl).1 h) (by decide),
   fun h => absurd ((f5EC2SyncSetup_ok_iff (vendorAnswers 200 "") "https://api.threatstack.com"
      { User := "u", Key := "k", Org := "o" } "int-1" _ ["us-east-1"]
      { StatusCode := 200, Body := ("", none) } rfl rfl).1 h) (by decide)⟩

/-! ## The handler -/

/-- Claim C7, as amended. For every event whose (EventSource, EventName) pair is not one of the
two recognized pairs, and for every environment, `HandleLambdaEvent` fails without any vendor
API request, file read or IAM call. Its only possible external call is the parameter-store
lookup that `buildConfig` makes first: none when a required variable is missing, exactly one
(for the path in F5_API_KEY_PATH) when all six are present. -/
theorem unrecognized_event_effects (w : World) (e : eventBridgeEvent) (h : ¬ recognized e) :
    (HandleLambdaEvent w e).2 ≠ none ∧
    (missingVariables w ≠ [] → (HandleLambdaEvent w e).1 = []) ∧
    (missingVariables w = [] →
      (HandleLambdaEvent w e).1 =
        [Effect.GetParameter { Region := w.Getenv "AWS_REGION" }
          { Name := w.Getenv "F5_API_KEY_PATH", WithDecryption := true }
          (w.GetParameter { Region := w.Getenv "AWS_REGION" }
            { Name := w.Getenv "F5_API_KEY_PATH", WithDecryption := true })]) := by
  by_cases hm : missingVariables w = []
  · have hb := buildConfig_of_complete w hm
    rw [getSecret_eq] at hb
    unfold HandleLambdaEvent
    rw [hb, determineAccountID_unrecognized e h]
    cases hg : w.GetParameter { Region := w.Getenv "AWS_REGION" }
        { Name := w.Getenv "F5_API_KEY_PATH", WithDecryption := true } <;> simp [hm]
  · unfold HandleLambdaEvent
    rw [buildConfig_of_missing w hm]
    simp [hm]

/-- With two variables missing, the event from some.other.service aborts with no call at all. -/
theorem unrecognized_event_effects_witness :
    ¬ recognized otherServiceEvent ∧
    missingVariables twoMissingWorld ≠ [] ∧
    (HandleLambdaEvent twoMissingWorld otherServiceEvent).2 ≠ none ∧
    (HandleLambdaEvent twoMissingWorld otherServiceEvent).1 = [] :=
  ⟨by decide, by decide,
   (unrecognized_event_effects twoMissingWorld otherServiceEvent (by decide)).1,
   (unrecognized_event_effects twoMissingWorld otherServiceEvent (by decide)).2.1 (by decide)⟩

/-- Counterexample to claim C7 as stated: with all six variables present, the handler has
already looked up the API key in the parameter store when it rejects an unrecognized event. -/
theorem unrecognized_event_reads_parameter_store :
    ¬ recognized otherServiceEvent ∧
    (HandleLambdaEvent happyWorld otherServiceEvent).2 ≠ none ∧
    (HandleLambdaEvent happyWorld otherServiceEvent).1 =
      [Effect.GetParameter { Region := "us-east-1" }
        { Name := "/f5/api-key", WithDecryption := true }
        (.ok { Parameter := { Value := some "s3cr3t" } })] := by
  refine ⟨by decide, by decide, ?_⟩
  rfl

/-- Every failure of `HandleLambdaEvent` before IAM provisioning (configuration load, event
classification, vendor integration, either artifact read) returns the message of the failing
stage behind a fixed non-empty context naming the stage. -/
theorem HandleLambdaEvent_wraps_before_iam (w : World) (e : eventBridgeEvent)
    (h : iamCalls (HandleLambdaEvent w e).1 = []) :
    (∃ err, (buildConfig w).2.2 = some err ∧
      (HandleLambdaEvent w e).2 = some ("unable to bulid config: " ++ err)) ∨
    (∃ err, (determineAccountID e).2 = some err ∧
      (HandleLambdaEvent w e).2 = some ("unable to get target account id: " ++ err)) ∨
    (∃ err, (setupF5Integration w
        { (buildConfig w).2.1 with TargetAccountID := (determineAccountID e).1 }).2.2 = some err ∧
      (HandleLambdaEvent w e).2 = some ("unable to setup integration: " ++ err)) ∨
    (∃ err, w.ReadFile "assumeRolePolicy.json" = .error err ∧
      (HandleLambdaEvent w e).2 = some ("unable to read assumeRolePolicy.json: " ++ err)) ∨
    (∃ err, w.ReadFile "syncPolicy.json" = .error err ∧
      (HandleLambdaEvent w e).2 = some ("unable to read syncPolicy.json: " ++ err)) := by
  rcases hb : buildConfig w with ⟨tr0, conf, _ | err⟩
  swap
  · left; simp [HandleLambdaEvent, hb]
  rcases hd : determineAccountID e with ⟨target, _ | err⟩
  swap
  · right; left; simp [HandleLambdaEvent, hb, hd]
  rcases hs : setupF5Integration w { conf with TargetAccountID := target }
    with ⟨tr1, externalID, _ | err⟩
  swap
  · right; right; left; simp [HandleLambdaEvent, hb, hd, hs]
  rcases hr1 : w.ReadFile "assumeRolePolicy.json" with err | rawAssumeRolePolicy
  · right; right; right; left; simp [HandleLambdaEvent, hb, hd, hs, hr1]
  rcases hr2 : w.ReadFile "syncPolicy.json" with err | rawSyncPolicy
  · right; right; right; right; simp [HandleLambdaEvent, hb, hd, hs, hr1, hr2]
  exfalso
  simp only [HandleLambdaEvent, hb, hd, hs, hr1, hr2] at h
  split at h
  · simp [iamCalls_append, iamCalls] at h
  · split at h
    · simp [iamCalls_append, iamCalls] at h
    · split at h <;> simp [iamCalls_append, iamCalls] at h

/-- Claim C9, at the failing input. The claim says every stage error comes back behind a
non-empty context naming the stage. With the role to create already present, CreateRole fails
and `HandleLambdaEvent` returns exactly the IAM message: no non-empty context stands in front
of it, unlike the five earlier failure returns of the same function. -/
theorem iam_error_returned_unwrapped :
    iamCalls (HandleLambdaEvent roleExistsWorld organizationsEvent).1 =
      [(.CreateRole, some "EntityAlreadyExists: Role with name f5-aip-role already exists.")] ∧
    (HandleLambdaEvent roleExistsWorld organizationsEvent).2 =
      some "EntityAlreadyExists: Role with name f5-aip-role already exists." ∧
    ¬ ∃ ctx : String, ctx ≠ "" ∧
      (HandleLambdaEvent roleExistsWorld organizationsEvent).2 =
        some (ctx ++ "EntityAlreadyExists: Role with name f5-aip-role already exists.") := by
  have h2 : (HandleLambdaEvent roleExistsWorld organizationsEvent).2 =
      some "EntityAlreadyExists: Role with name f5-aip-role already exists." := by decide
  refine ⟨by decide, h2, ?_⟩
  rintro ⟨ctx, hne, heq⟩
  rw [h2] at heq
  exact append_ne_self ctx _ hne (Option.some.inj heq).symm

/-- Claim C10. In every invocation of `HandleLambdaEvent` the IAM calls of the trace are an
initial part of CreateRole, CreatePolicy, AttachRolePolicy, each at most once and in this
order; a call is followed by the next one only if it returned no error; if one of them fails
the handler returns that error and issues no later IAM call and no detach or delete call. -/
theorem iam_calls_in_order (w : World) (e : eventBridgeEvent) :
    iamCalls (HandleLambdaEvent w e).1 = [] ∨
    (∃ err, iamCalls (HandleLambdaEvent w e).1 = [(.CreateRole, some err)] ∧
      (HandleLambdaEvent w e).2 = some err) ∨
    (∃ err, iamCalls (HandleLambdaEvent w e).1 =
        [(.CreateRole, none), (.CreatePolicy, some err)] ∧
      (HandleLambdaEvent w e).2 = some err) ∨
    (∃ err, iamCalls (HandleLambdaEvent w e).1 =
        [(.CreateRole, none), (.CreatePolicy, none), (.AttachRolePolicy, some err)] ∧
      (HandleLambdaEvent w e).2 = some err) ∨
    (iamCalls (HandleLambdaEvent w e).1 =
        [(.CreateRole, none), (.CreatePolicy, none), (.AttachRolePolicy, none)] ∧
      (HandleLambdaEvent w e).2 = none) := by
  have h0 := iamCalls_buildConfig w
  rcases hb : buildConfig w with ⟨tr0, conf, _ | err⟩
  swap
  · left; simp_all [HandleLambdaEvent]
  rcases hd : determineAccountID e with ⟨target, _ | err⟩
  swap
  · left; simp_all [HandleLambdaEvent]
  have h1 := iamCalls_setupF5Integration w { conf with TargetAccountID := target }
  rcases hs : setupF5Integration w { conf with TargetAccountID := target }
    with ⟨tr1, externalID, _ | err⟩
  swap
  · left; simp_all [HandleLambdaEvent, iamCalls_append]
  rcases hr1 : w.ReadFile "assumeRolePolicy.json" with err | rawAssumeRolePolicy
  · left; simp_all [HandleLambdaEvent, iamCalls_append, iamCalls]
  rcases hr2 : w.ReadFile "syncPolicy.json" with err | rawSyncPolicy
  · left; simp_all [HandleLambdaEvent, iamCalls_append, iamCalls]
  right
  rw [hb] at h0
  rw [hs] at h1
  simp only [HandleLambdaEvent, hb, hd, hs, hr1, hr2]
  split
  · simp_all [iamCalls_append, iamCalls, iam.Request.op]
  · split
    · simp_all [iamCalls_append, iamCalls, iam.Request.op]
    · split <;> simp_all [iamCalls_append, iamCalls, iam.Request.op]

/-- In the happy world an Organizations event runs to the end: the three IAM calls are issued
in order, each succeeds, and the handler returns no error. -/
theorem happy_path_completes :
    iamCalls (HandleLambdaEvent happyWorld organizationsEvent).1 =
      [(.CreateRole, none), (.CreatePolicy, none), (.AttachRolePolicy, none)] ∧
    (HandleLambdaEvent happyWorld organizationsEvent).2 = none := by
  decide

end Stacker
